import Mathlib

/-!
Shallow embedding of the visgate deploy-api core (src/deploy-api) used to
settle the frozen claims: the deployment record, the ready/worker state
updates of `services/deployment.py`, the webhook retry loop of
`services/webhook.py`, the tenancy guards of `api/routes/deployments.py`,
the GPU selection of `services/gpu_registry.py` / `services/gpu_selection.py`,
the VRAM estimation of `models/model_specs_registry.py`, the provider factory
of `services/provider_factory.py`, and the secret cache of
`services/secret_cache.py`.

Python strings, `None` and truthiness are modelled with `String`,
`Option String` and an explicit truthiness test (empty string and `None` are
falsy).  External HTTP outcomes (the user webhook endpoint) are modelled as a
boolean oracle indexed by attempt number.  Monotonic time is passed
explicitly.  Side effects that the claims talk about (store writes that set
`status=ready`, webhook POST attempts, the `webhook_delivery_failures_total`
counter) are collected in an explicit effects record.
-/

namespace Visgate

/-- Python truthiness of an `Optional[str]`: `None` and `""` are falsy. -/
def str_truthy : Option String → Bool
  | none => false
  | some s => s != ""

/-- One entry of the `logs` array of a deployment document
(`models/entities.py`, `LogEntry`; the timestamp is irrelevant to the claims
and omitted). -/
structure LogEntry where
  level : String
  message : String
deriving Repr, DecidableEq

/-- Deployment document as read and written by the routes and the
orchestration engine (fields used by `api/routes/deployments.py` and
`services/deployment.py`; a missing `user_hash` is represented by `""`,
matching the falsy check `if doc.user_hash and ...` in the routes). -/
structure DeploymentDoc where
  deployment_id : String
  status : String
  hf_model_id : String := ""
  user_webhook_url : String := ""
  runpod_endpoint_id : Option String := none
  endpoint_url : Option String := none
  gpu_allocated : Option String := none
  created_at : String := ""
  ready_at : Option String := none
  error : Option String := none
  user_hash : String := ""
  logs : List LogEntry := []
deriving Repr, DecidableEq

/-- Embeds `_as_run_url` (services/deployment.py:42-45): falsy input gives
`None`, otherwise the URL is suffixed with `/run` if it does not already end
in it. -/
def as_run_url : Option String → Option String
  | none => none
  | some s =>
    if s = "" then none
    else if s.endsWith "/run" then some s
    else some (s ++ "/run")

/-- Python `a or b` for the option-of-truthy-string results of
`_as_run_url` (which never returns an empty string). -/
def or_else_str (a b : Option String) : Option String :=
  match a with
  | some s => some s
  | none => b

/-- Effects observed by the claims: `ready_writes` counts
`update_deployment` calls whose update dict sets `status=ready` and
`ready_at`; `notify_calls` counts invocations of `webhook.notify`;
`webhook_posts` counts HTTP POST attempts to the user webhook URL;
`successful_posts` counts POSTs answered with a 2xx; `webhook_failure_metric`
counts increments of the `webhook_delivery_failures_total` counter
(`core/telemetry.py`, `record_webhook_failure`). -/
structure Effects where
  ready_writes : Nat := 0
  notify_calls : Nat := 0
  webhook_posts : Nat := 0
  successful_posts : Nat := 0
  webhook_failure_metric : Nat := 0
deriving Repr, DecidableEq

/-- Result of the retry loop of `webhook.notify`. -/
structure NotifyResult where
  posts : Nat
  delivered : Bool
  failure_metric : Nat
deriving Repr, DecidableEq

/-- Attempt loop of `notify` (services/webhook.py:26-58): up to `remaining`
POSTs, stopping at the first success; returns (number of POSTs, success).
The oracle gives the outcome of each attempt (2xx response = `true`;
non-2xx and transport exceptions = `false`). -/
def notify_go (oracle : Nat → Bool) : Nat → Nat → Nat × Bool
  | _, 0 => (0, false)
  | attempt, Nat.succ n =>
    if oracle attempt then (1, true)
    else
      let r := notify_go oracle (attempt + 1) n
      (r.1 + 1, r.2)

/-- Embeds `notify` (services/webhook.py): retry loop with backoff, and on
exhaustion it calls `record_webhook_failure()` once and returns `False`. -/
def notify (oracle : Nat → Bool) (retries : Nat) : NotifyResult :=
  let r := notify_go oracle 0 retries
  { posts := r.1, delivered := r.2, failure_metric := if r.2 then 0 else 1 }

/-- Result of a state-update entry point: the new store content for the
deployment id, the returned boolean, and the observed effects. -/
structure MarkResult where
  doc : Option DeploymentDoc
  returned : Bool
  eff : Effects
deriving Repr, DecidableEq

/-- Embeds `mark_deployment_ready_and_notify`
(services/deployment.py:352-443).  The store content for the deployment id is
passed as `doc?`; `now` is the `_now_iso()` timestamp; the webhook outcome is
the attempt oracle together with the configured retry count
(`settings.webhook_max_retries`, default 3). -/
def mark_deployment_ready_and_notify
    (doc? : Option DeploymentDoc) (endpoint_url? : Option String)
    (now : String) (oracle : Nat → Bool) (retries : Nat) : MarkResult :=
  match doc? with
  | none => { doc := none, returned := false, eff := {} }
  | some doc =>
    if doc.status = "ready" ∧ str_truthy doc.ready_at then
      { doc := some doc, returned := true, eff := {} }
    else
      let resolved := or_else_str (as_run_url endpoint_url?) (as_run_url doc.endpoint_url)
      let doc1 : DeploymentDoc :=
        { doc with
          status := "ready"
          ready_at := some now
          endpoint_url :=
            match resolved with
            | some u => some u
            | none => doc.endpoint_url }
      let doc2 : DeploymentDoc :=
        { doc1 with logs := doc1.logs ++ [⟨"INFO", "Model loaded, deployment ready"⟩] }
      let nr := notify oracle retries
      if nr.delivered then
        { doc := some doc2
          returned := true
          eff :=
            { ready_writes := 1
              notify_calls := 1
              webhook_posts := nr.posts
              successful_posts := 1
              webhook_failure_metric := nr.failure_metric } }
      else
        let doc3 : DeploymentDoc :=
          { doc2 with
            error := some "User webhook delivery failed after retries"
            logs := doc2.logs ++
              [⟨"WARNING", "User webhook delivery failed after retries; deployment remains ready"⟩] }
        { doc := some doc3
          returned := false
          eff :=
            { ready_writes := 1
              notify_calls := 1
              webhook_posts := nr.posts
              successful_posts := 0
              webhook_failure_metric := nr.failure_metric + 1 } }

/-- Embeds `update_deployment_phase_from_worker`
(services/deployment.py:446-488): worker-reported phase updates; status
`ready` delegates to `mark_deployment_ready_and_notify`; a record whose
current status is `ready` ignores everything except `failed`. -/
def update_deployment_phase_from_worker
    (doc? : Option DeploymentDoc) (status : String)
    (message? : Option String) (endpoint_url? : Option String)
    (now : String) (oracle : Nat → Bool) (retries : Nat) : MarkResult :=
  match doc? with
  | none => { doc := none, returned := false, eff := {} }
  | some doc =>
    if status = "ready" then
      mark_deployment_ready_and_notify (some doc) endpoint_url? now oracle retries
    else if doc.status = "ready" ∧ status ≠ "failed" then
      { doc := some doc, returned := true, eff := {} }
    else
      let resolved := as_run_url endpoint_url?
      let doc1 : DeploymentDoc :=
        { doc with
          status := status
          endpoint_url :=
            match resolved with
            | some u => some u
            | none => doc.endpoint_url }
      let doc2 : DeploymentDoc :=
        if status = "failed" then
          { doc1 with
            error := some (if str_truthy message? then message?.getD "" else "Worker reported failure") }
        else doc1
      let log_message :=
        if str_truthy message? then message?.getD ""
        else if status = "downloading_model" then "Worker is downloading model artifacts"
        else if status = "loading_model" then "Worker is loading model into memory"
        else if status = "failed" then "Worker reported model loading failure"
        else "Worker phase update: " ++ status
      let lvl := if status = "failed" then "ERROR" else "INFO"
      { doc := some { doc2 with logs := doc2.logs ++ [⟨lvl, log_message⟩] }
        returned := true
        eff := {} }

/-! GPU registry and selection (services/gpu_registry.py,
services/gpu_selection.py). -/

/-- Embeds `GPUSpec` (services/gpu_registry.py:5-9). -/
structure GPUSpec where
  id : String
  display : String
  vram : Nat
  cost_index : Nat
deriving Repr, DecidableEq

/-- Embeds `DEFAULT_GPU_REGISTRY` (services/gpu_registry.py:12-20). -/
def DEFAULT_GPU_REGISTRY : List GPUSpec :=
  [ ⟨"AMPERE_16", "NVIDIA A16", 16, 1⟩
  , ⟨"AMPERE_24", "NVIDIA A10 / A30", 24, 2⟩
  , ⟨"ADA_24", "NVIDIA L40 / RTX 4090", 24, 3⟩
  , ⟨"AMPERE_48", "NVIDIA A40", 48, 5⟩
  , ⟨"ADA_48_PRO", "NVIDIA L40S", 48, 6⟩
  , ⟨"AMPERE_80", "NVIDIA A100", 80, 8⟩
  , ⟨"ADA_80_PRO", "NVIDIA H100", 80, 10⟩ ]

/-- Embeds `DEFAULT_TIER_MAPPING` (services/gpu_registry.py:22-33). -/
def DEFAULT_TIER_MAPPING : List (String × List String) :=
  [ ("ECONOMY", ["AMPERE_16", "AMPERE_24"])
  , ("STANDARD", ["ADA_24", "AMPERE_24"])
  , ("PRO", ["AMPERE_48", "ADA_48_PRO"])
  , ("ULTIMATE", ["AMPERE_80", "ADA_80_PRO"])
  , ("A16", ["AMPERE_16"])
  , ("A10", ["AMPERE_24"])
  , ("A40", ["AMPERE_48"])
  , ("A100", ["AMPERE_80"])
  , ("H100", ["ADA_80_PRO"])
  , ("4090", ["ADA_24"]) ]

/-- Python `registry if registry else DEFAULT_GPU_REGISTRY` (`None` and the
empty list both fall back to the default). -/
def effective_registry (registry : List GPUSpec) : List GPUSpec :=
  if registry.isEmpty then DEFAULT_GPU_REGISTRY else registry

/-- Python `tier_mapping if tier_mapping else DEFAULT_TIER_MAPPING`. -/
def effective_mapping (mapping : List (String × List String)) : List (String × List String) :=
  if mapping.isEmpty then DEFAULT_TIER_MAPPING else mapping

/-- Sort key of `sorted(reg, key=lambda x: (x.get("cost_index",5), x.get("vram",0)))`:
lexicographic on (cost_index, vram). -/
def gpu_key_le (a b : GPUSpec) : Bool :=
  decide (a.cost_index < b.cost_index ∨ (a.cost_index = b.cost_index ∧ a.vram ≤ b.vram))

/-- Stable insertion: `a` is placed before the first element it compares
`≤` to, so elements with equal keys keep their original order. -/
def stable_insert (le : GPUSpec → GPUSpec → Bool) (a : GPUSpec) : List GPUSpec → List GPUSpec
  | [] => [a]
  | b :: bs => if le a b then a :: b :: bs else b :: stable_insert le a bs

/-- Stable sort modelling Python `sorted` (a stable sort; any two stable
sorts with the same total key agree). -/
def stable_sort (le : GPUSpec → GPUSpec → Bool) : List GPUSpec → List GPUSpec
  | [] => []
  | a :: l => stable_insert le a (stable_sort le l)

/-- Tier candidate resolution (services/gpu_registry.py:46-50): falsy tier
gives no candidates, otherwise `mapping.get(tier.strip().upper(), [])`. -/
def tier_candidates_of (mapping : List (String × List String)) (gpu_tier : Option String) : List String :=
  match gpu_tier with
  | none => []
  | some t =>
    if t = "" then []
    else ((effective_mapping mapping).lookup t.trim.toUpper).getD []

/-- Embeds `select_gpu_id_for_vram` (services/gpu_registry.py:35-68):
first match inside the tier candidate set, then the absolute cheapest
registry entry with enough VRAM, else `None`. -/
def select_gpu_id_for_vram
    (vram_gb : Nat) (gpu_tier : Option String := none)
    (registry : List GPUSpec := []) (tier_mapping : List (String × List String) := []) :
    Option String :=
  let reg := effective_registry registry
  let tier_candidates := tier_candidates_of tier_mapping gpu_tier
  let sorted_registry := stable_sort gpu_key_le reg
  let from_tier :=
    if tier_candidates.isEmpty then none
    else sorted_registry.find? (fun g => tier_candidates.contains g.id && vram_gb ≤ g.vram)
  match from_tier with
  | some g => some g.id
  | none =>
    match sorted_registry.find? (fun g => vram_gb ≤ g.vram) with
    | some g => some g.id
    | none => none

/-- Embeds `gpu_id_to_display_name` (services/gpu_registry.py:70-76). -/
def gpu_id_to_display_name (gpu_id : String) (registry : List GPUSpec := []) : String :=
  match (effective_registry registry).find? (fun g => g.id = gpu_id) with
  | some g => g.display
  | none => "NVIDIA " ++ gpu_id

/-- Modelled from the spec: `select_gpu_candidates_for_vram` is imported by
`services/gpu_selection.py` and exercised by `tests/unit/test_gpu_registry.py`
but its definition is absent from the sources; §4.1 of the spec gives the
algorithm — registry sorted ascending by (cost_index, vram); first every
entry whose id is in the tier candidate set and whose vram is at least the
requirement, then every remaining entry with enough vram, in sorted order. -/
def select_gpu_candidates_for_vram
    (vram_gb : Nat) (gpu_tier : Option String := none)
    (registry : List GPUSpec := []) (tier_mapping : List (String × List String) := []) :
    List String :=
  let reg := effective_registry registry
  let tier_candidates := tier_candidates_of tier_mapping gpu_tier
  let sorted_registry := stable_sort gpu_key_le reg
  let in_tier :=
    (sorted_registry.filter (fun g => tier_candidates.contains g.id && vram_gb ≤ g.vram)).map (·.id)
  let remaining :=
    (sorted_registry.filter (fun g => !tier_candidates.contains g.id && vram_gb ≤ g.vram)).map (·.id)
  in_tier ++ remaining

/-- Error taxonomy (deployment-orchestrator/src/core/errors.py; the
deploy-api copy of `core/errors.py` is absent from the sources but the
orchestrator copy in this repository carries the same classes):
`DeploymentNotFoundError` maps to HTTP 404 and
`RunpodInsufficientGPUError` to HTTP 503 with `details.required_vram_gb`. -/
inductive ApiError where
  | deploymentNotFound (deployment_id : String)
  | insufficientGPU (required_vram_gb : Nat)
deriving Repr, DecidableEq

/-- HTTP status code attached to each error class (core/errors.py). -/
def ApiError.status_code : ApiError → Nat
  | .deploymentNotFound _ => 404
  | .insufficientGPU _ => 503

/-- Embeds `select_gpu_candidates` (services/gpu_selection.py:22-32): the
ordered (gpu_id, display_name) candidate list, raising
`RunpodInsufficientGPUError(vram_gb)` when the list is empty. -/
def select_gpu_candidates
    (vram_gb : Nat) (gpu_tier : Option String := none)
    (registry : List GPUSpec := []) (tier_mapping : List (String × List String) := []) :
    Except ApiError (List (String × String)) :=
  let ids := select_gpu_candidates_for_vram vram_gb gpu_tier registry tier_mapping
  if ids.isEmpty then Except.error (ApiError.insufficientGPU vram_gb)
  else Except.ok (ids.map (fun gpu_id => (gpu_id, gpu_id_to_display_name gpu_id registry)))

/-! Model specs registry and VRAM estimation
(models/model_specs_registry.py, services/huggingface.py). -/

/-- Embeds the `gpu_memory_gb` column of `MODEL_SPECS_REGISTRY`
(models/model_specs_registry.py:14-91); the `tasks` column is not needed by
any claim and is omitted. -/
def MODEL_SPECS_REGISTRY : List (String × Nat) :=
  [ ("black-forest-labs/FLUX.1-schnell", 16)
  , ("black-forest-labs/FLUX.1-dev", 28)
  , ("stabilityai/stable-diffusion-xl-base-1.0", 12)
  , ("stabilityai/sdxl-turbo", 10)
  , ("stabilityai/sd-turbo", 8)
  , ("stabilityai/stable-diffusion-2-1", 8)
  , ("runwayml/stable-diffusion-v1-5", 6)
  , ("stabilityai/stable-diffusion-3-medium-diffusers", 18)
  , ("stabilityai/stable-diffusion-3.5-large", 40)
  , ("stabilityai/stable-diffusion-3.5-large-turbo", 40)
  , ("stabilityai/stable-diffusion-3.5-medium", 18)
  , ("PixArt-alpha/PixArt-Sigma-XL-2-1024-MS", 18)
  , ("kandinsky-community/kandinsky-2-2-decoder", 10)
  , ("DeepFloyd/IF-I-XL-v1.0", 40)
  , ("Wan-AI/Wan2.1-T2V-14B-Diffusers", 80)
  , ("Wan-AI/Wan2.1-T2V-1.3B-Diffusers", 16)
  , ("THUDM/CogVideoX-5b", 48) ]

/-- Embeds `_BYTES_PER_PARAM` (models/model_specs_registry.py:96-101). -/
def BYTES_PER_PARAM : List (String × Nat) :=
  [ ("BF16", 2), ("F16", 2), ("F32", 4), ("F64", 8)
  , ("I64", 8), ("I32", 4), ("I16", 2), ("I8", 1)
  , ("U8", 1), ("U16", 2), ("U32", 4), ("U64", 8)
  , ("F8_E4M3", 1), ("F8_E5M2", 1) ]

/-- Embeds `_GPU_TIERS` (models/model_specs_registry.py:104). -/
def GPU_TIERS : List Nat := [6, 8, 10, 12, 16, 24, 28, 40, 48, 80]

/-- Embeds `_ACTIVATION_MULTIPLIER = 1.35`; the Python float arithmetic of
the estimator is modelled exactly with rationals. -/
def ACTIVATION_MULTIPLIER : ℚ := 27 / 20

/-- Embeds `_snap_to_gpu_tier` (models/model_specs_registry.py:110-115):
the first tier at least `ceil(vram_gb)`, else the largest tier (80). -/
def snap_to_gpu_tier (vram_gb : ℚ) : Nat :=
  (GPU_TIERS.find? (fun (tier : Nat) => decide (⌈vram_gb⌉ ≤ (tier : ℤ)))).getD 80

/-- Embeds `_estimate_vram_from_weight_bytes`
(models/model_specs_registry.py:118-131). -/
def estimate_vram_from_weight_bytes (weight_bytes : Nat) : Nat :=
  snap_to_gpu_tier ((weight_bytes : ℚ) / (1024 ^ 3) * ACTIVATION_MULTIPLIER)

/-- Embeds `_PARAM_TO_VRAM` (models/model_specs_registry.py:135-143). -/
def PARAM_TO_VRAM : List (Nat × Nat) :=
  [ (500, 6), (1000, 8), (3000, 12), (7000, 16), (13000, 24), (30000, 40), (70000, 80) ]

/-- Embeds `_estimate_vram_from_params` (models/model_specs_registry.py:146-151). -/
def estimate_vram_from_params (params_millions : Nat) : Nat :=
  match PARAM_TO_VRAM.find? (fun p => decide (params_millions ≤ p.1)) with
  | some p => p.2
  | none => 80

/-- Embeds `get_min_gpu_memory_gb` (models/model_specs_registry.py:164-185):
registry entry first, then the dtype-aware byte estimate when positive
weight bytes are known, then the parameter-count table, else 16 GB. -/
def get_min_gpu_memory_gb
    (model_id : String)
    (hf_params_millions : Option Nat := none)
    (hf_weight_bytes : Option Nat := none) : Nat :=
  match MODEL_SPECS_REGISTRY.lookup model_id with
  | some v => v
  | none =>
    match hf_weight_bytes with
    | some b =>
      if 0 < b then estimate_vram_from_weight_bytes b
      else
        match hf_params_millions with
        | some p => estimate_vram_from_params p
        | none => 16
    | none =>
      match hf_params_millions with
      | some p => estimate_vram_from_params p
      | none => 16

/-- Total weight bytes computed by `validate_model`
(services/huggingface.py:80-93): sum over the safetensors per-dtype
parameter counts of count times bytes-per-dtype, unknown dtypes counting 4
bytes. -/
def total_weight_bytes (parameters : List (String × Nat)) : Nat :=
  (parameters.map (fun p => p.2 * ((BYTES_PER_PARAM.lookup p.1).getD 4))).sum

/-! Route guards (api/routes/deployments.py). -/

/-- Embeds `get_deployment_status` (api/routes/deployments.py:343-356):
missing document, or a stored truthy `user_hash` different from the
caller's, raise `DeploymentNotFoundError`; otherwise the document is
returned (the wire projection `_doc_to_response` is irrelevant to the
claims). -/
def get_deployment_status
    (deployment_id : String) (doc? : Option DeploymentDoc) (ctx_user_hash : String) :
    Except ApiError DeploymentDoc :=
  match doc? with
  | none => Except.error (ApiError.deploymentNotFound deployment_id)
  | some doc =>
    if doc.user_hash ≠ "" ∧ doc.user_hash ≠ ctx_user_hash then
      Except.error (ApiError.deploymentNotFound deployment_id)
    else Except.ok doc

/-- Embeds `delete_deployment` (api/routes/deployments.py:433-454): the same
tenancy guard, then best-effort provider teardown (external, no effect on
the record) and `status := "deleted"`. -/
def delete_deployment
    (deployment_id : String) (doc? : Option DeploymentDoc) (ctx_user_hash : String) :
    Except ApiError DeploymentDoc :=
  match doc? with
  | none => Except.error (ApiError.deploymentNotFound deployment_id)
  | some doc =>
    if doc.user_hash ≠ "" ∧ doc.user_hash ≠ ctx_user_hash then
      Except.error (ApiError.deploymentNotFound deployment_id)
    else Except.ok { doc with status := "deleted" }

/-- Embeds the guard of the SSE status stream generator
(api/routes/deployments.py:373-379): `true` when the generator serves status
events, `false` when it emits the `not_found` error event and stops. -/
def stream_guard_allows (doc? : Option DeploymentDoc) (ctx_user_hash : String) : Bool :=
  match doc? with
  | none => false
  | some doc => !(doc.user_hash ≠ "" ∧ doc.user_hash ≠ ctx_user_hash : Bool)

/-! Provider factory (services/provider_factory.py) and the Runpod provider
registration. -/

/-- Provider implementation surface needed by the claims
(services/base_provider.py, `BaseInferenceProvider`): the pure invocation-URL
derivation; the networked create/delete/list operations are external
collaborators. -/
structure ProviderImpl where
  provider_name : String
  run_url : String → String

/-- Runpod invocation URL derivation, from `endpoint_run_url`
(services/runpod.py:251-253). -/
def runpodProvider : ProviderImpl :=
  { provider_name := "runpod"
    run_url := fun endpoint_id => "https://api.runpod.ai/v2/" ++ endpoint_id ++ "/run" }

/-- Embeds `register_provider` (services/provider_factory.py:6-7): keys are
lowercased. -/
def register_provider
    (providers : List (String × ProviderImpl)) (name : String) (p : ProviderImpl) :
    List (String × ProviderImpl) :=
  (name.toLower, p) :: providers

/-- Modelled from the spec: the module that instantiates the Runpod
implementation and calls `register_provider("runpod", ...)` at import time is
absent from the sources — `services/deployment.py:34` and
`api/routes/deployments.py:30` import `src.services.runpod` with the comment
"Trigger registration", and §9 of the spec says the name-to-implementation
registry is populated at startup.  This is the provider table after that
startup registration. -/
def startup_providers : List (String × ProviderImpl) :=
  register_provider [] "runpod" runpodProvider

/-- Embeds `get_provider` (services/provider_factory.py:9-13): lowercased
lookup, raising `ValueError("Provider ... not found")` on a miss. -/
def get_provider
    (name : String) (providers : List (String × ProviderImpl) := startup_providers) :
    Except String ProviderImpl :=
  match providers.lookup name.toLower with
  | some p => Except.ok p
  | none => Except.error ("Provider " ++ name ++ " not found")

/-! Secret cache (services/secret_cache.py) and the cache interaction of the
background workflow (services/deployment.py, `orchestrate_deployment`). -/

/-- Embeds `CachedSecrets` (services/secret_cache.py:10-19); `expires_at` is
a monotonic-clock instant, modelled as a rational. -/
structure CachedSecrets where
  runpod_api_key : String
  hf_token : Option String := none
  aws_access_key_id : Option String := none
  aws_secret_access_key : Option String := none
  aws_endpoint_url : Option String := none
  s3_model_url : Option String := none
  expires_at : ℚ
deriving Repr, DecidableEq

/-- Embeds `_DEFAULT_TTL_SECONDS = 3600.0` (services/secret_cache.py:22). -/
def DEFAULT_TTL_SECONDS : ℚ := 3600

/-- The process-local `_cache` dictionary, keyed by deployment id. -/
def SecretCache : Type := List (String × CachedSecrets)

/-- Embeds `store_secrets` (services/secret_cache.py:27-48): insert or
replace under the deployment id with `expires_at = now + ttl`. -/
def store_secrets
    (cache : SecretCache) (deployment_id : String)
    (runpod_api_key : String) (hf_token : Option String)
    (now : ℚ) (ttl_seconds : ℚ := DEFAULT_TTL_SECONDS)
    (aws_access_key_id : Option String := none)
    (aws_secret_access_key : Option String := none)
    (aws_endpoint_url : Option String := none)
    (s3_model_url : Option String := none) : SecretCache :=
  (deployment_id,
    { runpod_api_key := runpod_api_key
      hf_token := hf_token
      aws_access_key_id := aws_access_key_id
      aws_secret_access_key := aws_secret_access_key
      aws_endpoint_url := aws_endpoint_url
      s3_model_url := s3_model_url
      expires_at := now + ttl_seconds }) ::
    List.filter (fun e => e.1 != deployment_id) cache

/-- Embeds `get_secrets` (services/secret_cache.py:51-61): the entry if
present and unexpired; an expired entry is popped.  Returns the fetched
entry together with the cache afterwards. -/
def get_secrets (cache : SecretCache) (deployment_id : String) (now : ℚ) :
    Option CachedSecrets × SecretCache :=
  match cache.lookup deployment_id with
  | none => (none, cache)
  | some entry =>
    if entry.expires_at ≤ now then
      (none, List.filter (fun e => e.1 != deployment_id) cache)
    else (some entry, cache)

/-- Embeds `clear_secrets` (services/secret_cache.py:64-67). -/
def clear_secrets (cache : SecretCache) (deployment_id : String) : SecretCache :=
  List.filter (fun e => e.1 != deployment_id) cache

/-- Secret-cache operations available to the service code. -/
inductive CacheOp where
  | fetch (deployment_id : String)
  | clear (deployment_id : String)
deriving Repr, DecidableEq

/-- Secret-cache interaction trace of `orchestrate_deployment`
(services/deployment.py:90-349): `get_secrets(deployment_id)` is called
exactly when no `runpod_api_key` argument was passed (line 140-141), and no
other secret-cache call occurs anywhere in the function — in particular
`clear_secrets` is never invoked on any path (completion, early return, or
exception handler). -/
def orchestrate_deployment_cache_ops
    (deployment_id : String) (runpod_api_key : Option String) : List CacheOp :=
  if str_truthy runpod_api_key then [] else [CacheOp.fetch deployment_id]

/-- Applies a trace of cache operations at a fixed instant. -/
def apply_cache_ops (now : ℚ) : SecretCache → List CacheOp → SecretCache
  | cache, [] => cache
  | cache, CacheOp.fetch id :: rest => apply_cache_ops now (get_secrets cache id now).2 rest
  | cache, CacheOp.clear id :: rest => apply_cache_ops now (clear_secrets cache id) rest

/-! Sample documents used to instantiate theorems on concrete inputs. -/

/-- SHA-256 of the bearer key `rpa_TEST`. -/
def hashA : String := "7eed1bf4bb75e879d692b0b601962db83b4e6c656937fddf9dee664441be48d3"

/-- SHA-256 of the bearer key `rpa_OTHER`. -/
def hashB : String := "ebce600ce4d86005b44411524afb12e995b68e76459b2e6d33d95cada6363f70"

/-- A record created by caller A. -/
def docOfCallerA : DeploymentDoc :=
  { deployment_id := "dep_2025_aa11bb22"
    status := "ready"
    hf_model_id := "black-forest-labs/FLUX.1-schnell"
    user_hash := hashA }

/-- A legacy record without a stored `user_hash`. -/
def legacyDoc : DeploymentDoc :=
  { deployment_id := "dep_2024_00000000"
    status := "ready"
    hf_model_id := "stabilityai/sd-turbo"
    user_hash := "" }

/-- A record in the terminal status `failed`. -/
def failedDoc : DeploymentDoc :=
  { deployment_id := "dep_2025_f0f0f0f0"
    status := "failed"
    error := some "Worker reported failure" }

/-- A record already `ready` with `ready_at` set. -/
def readyDoc : DeploymentDoc :=
  { deployment_id := "dep_2025_d1d1d1d1"
    status := "ready"
    ready_at := some "2025-01-01T00:00:00Z"
    endpoint_url := some "https://api.runpod.ai/v2/ep1/run" }

/-- A record awaiting the worker in `loading_model`. -/
def loadingDoc : DeploymentDoc :=
  { deployment_id := "dep_2025_c3c3c3c3"
    status := "loading_model"
    user_webhook_url := "https://example.invalid/hook"
    endpoint_url := some "https://api.runpod.ai/v2/ep2"
    created_at := "2025-01-01T00:00:00Z" }

/-! C8 — provider registry. -/

/-- C8: after the startup registration the provider registry maps
`runpod` to the Runpod implementation, so `get_provider("runpod")` — the
lookup made on every create (api/routes/deployments.py:225) and delete
(api/routes/deployments.py:449) — returns that implementation and its
"Provider not found" error branch is not taken. -/
theorem get_provider_runpod_ok :
    get_provider "runpod" startup_providers = Except.ok runpodProvider ∧
    (get_provider "runpod" startup_providers).isOk = true := by
  have h : get_provider "runpod" startup_providers = Except.ok runpodProvider := by
    simp [get_provider, startup_providers, register_provider, List.lookup]
  exact ⟨h, by rw [h]; rfl⟩

/-! C10 — empty stored user_hash skips the tenancy check. -/

/-- C10: when the stored `user_hash` of a record is empty (or missing, which
the document loader reads back as the empty string), the guard
`if doc.user_hash and doc.user_hash != ctx.user_hash` is skipped, so GET,
DELETE and the SSE status stream all succeed for any authenticated caller,
whatever bearer key created the record. -/
theorem empty_user_hash_skips_tenancy
    (deployment_id : String) (doc : DeploymentDoc) (ctx_user_hash : String)
    (h : doc.user_hash = "") :
    get_deployment_status deployment_id (some doc) ctx_user_hash = Except.ok doc ∧
    delete_deployment deployment_id (some doc) ctx_user_hash =
      Except.ok { doc with status := "deleted" } ∧
    stream_guard_allows (some doc) ctx_user_hash = true := by
  simp [get_deployment_status, delete_deployment, stream_guard_allows, h]

/-- Witness for C10: the legacy record without a stored hash is served to a
caller bearing a different key. -/
theorem empty_user_hash_skips_tenancy_witness :
    get_deployment_status "dep_2024_00000000" (some legacyDoc) hashB = Except.ok legacyDoc ∧
    delete_deployment "dep_2024_00000000" (some legacyDoc) hashB =
      Except.ok { legacyDoc with status := "deleted" } ∧
    stream_guard_allows (some legacyDoc) hashB = true :=
  empty_user_hash_skips_tenancy "dep_2024_00000000" legacyDoc hashB rfl

/-! C4 — cross-tenant reads. -/

/-- C4 counterexample: a record whose stored `user_hash` is empty differs
from the caller's (non-empty) hash, yet GET returns the record instead of
404 — so the claim, quantified over every record whose stored hash differs
from the caller's, fails; the tenancy guard only fires for a truthy stored
hash. -/
theorem tenancy_empty_hash_counterexample :
    legacyDoc.user_hash ≠ hashB ∧
    get_deployment_status "dep_2024_00000000" (some legacyDoc) hashB = Except.ok legacyDoc ∧
    delete_deployment "dep_2024_00000000" (some legacyDoc) hashB =
      Except.ok { legacyDoc with status := "deleted" } := by
  refine ⟨by decide, ?_, ?_⟩ <;>
    simp [get_deployment_status, delete_deployment, legacyDoc]

/-- C4 amended: for every record whose stored `user_hash` is non-empty and
differs from the caller's hash, GET and DELETE fail with
`DeploymentNotFound`, carrying HTTP status 404 and never 403, so existence
of cross-tenant deployments is not disclosed. -/
theorem tenancy_mismatch_404
    (deployment_id : String) (doc : DeploymentDoc) (ctx_user_hash : String)
    (h1 : doc.user_hash ≠ "") (h2 : doc.user_hash ≠ ctx_user_hash) :
    get_deployment_status deployment_id (some doc) ctx_user_hash =
      Except.error (ApiError.deploymentNotFound deployment_id) ∧
    delete_deployment deployment_id (some doc) ctx_user_hash =
      Except.error (ApiError.deploymentNotFound deployment_id) ∧
    (ApiError.deploymentNotFound deployment_id).status_code = 404 ∧
    (ApiError.deploymentNotFound deployment_id).status_code ≠ 403 := by
  simp [get_deployment_status, delete_deployment, ApiError.status_code, h1, h2]

/-- Witness for the amended C4: caller B, bearing a different key than the
creator A, gets a 404 on GET and DELETE of A's deployment. -/
theorem tenancy_mismatch_404_witness :
    get_deployment_status "dep_2025_aa11bb22" (some docOfCallerA) hashB =
      Except.error (ApiError.deploymentNotFound "dep_2025_aa11bb22") ∧
    delete_deployment "dep_2025_aa11bb22" (some docOfCallerA) hashB =
      Except.error (ApiError.deploymentNotFound "dep_2025_aa11bb22") ∧
    (ApiError.deploymentNotFound "dep_2025_aa11bb22").status_code = 404 ∧
    (ApiError.deploymentNotFound "dep_2025_aa11bb22").status_code ≠ 403 :=
  tenancy_mismatch_404 "dep_2025_aa11bb22" docOfCallerA hashB (by decide) (by decide)

/-! C6 — sd-turbo selection on the default registry. -/

/-- C6 counterexample: `stabilityai/sd-turbo` needs 8 GB and, with no tier
given, the selector on the default registry returns `AMPERE_16` (16 GB,
cost_index 1) — not `AMPERE_24` as the claim states: `AMPERE_16` already
satisfies vram at least 8 and is cheaper. -/
theorem sd_turbo_selector_counterexample :
    get_min_gpu_memory_gb "stabilityai/sd-turbo" = 8 ∧
    select_gpu_id_for_vram 8 = some "AMPERE_16" ∧
    select_gpu_id_for_vram 8 ≠ some "AMPERE_24" ∧
    (select_gpu_candidates_for_vram 8).head? = some "AMPERE_16" := by
  decide

/-- C6 amended: for the curated 8 GB entry `stabilityai/sd-turbo` and a
request with no gpu_tier, the selector on the default registry returns
`AMPERE_16` (16 GB, the cheapest entry with vram at least 8) as the first
candidate, with `AMPERE_24` second. -/
theorem sd_turbo_selects_ampere16 :
    get_min_gpu_memory_gb "stabilityai/sd-turbo" = 8 ∧
    select_gpu_id_for_vram 8 = some "AMPERE_16" ∧
    select_gpu_candidates_for_vram 8 =
      ["AMPERE_16", "AMPERE_24", "ADA_24", "AMPERE_48", "ADA_48_PRO", "AMPERE_80", "ADA_80_PRO"] ∧
    gpu_id_to_display_name "AMPERE_16" = "NVIDIA A16" := by
  decide

/-! C9 — secret cache lifecycle. -/

/-- C9 counterexample: the background workflow never deletes the cache
entry — its only secret-cache operation is the read, so after the workflow's
cache operations complete the entry stored at creation is still present
(here probed 10 seconds after storing, well within the TTL), contradicting
"deleted when the background workflow completes". -/
theorem secret_cache_not_cleared_counterexample :
    (CacheOp.clear "dep_2025_99999999") ∉
      orchestrate_deployment_cache_ops "dep_2025_99999999" none ∧
    ((apply_cache_ops 10
        (store_secrets [] "dep_2025_99999999" "rpa_TEST" none 0)
        (orchestrate_deployment_cache_ops "dep_2025_99999999" none)).lookup
      "dep_2025_99999999").isSome = true := by
  constructor
  · decide
  · have hlook :
        (store_secrets [] "dep_2025_99999999" "rpa_TEST" none 0).lookup "dep_2025_99999999" =
          some { runpod_api_key := "rpa_TEST", hf_token := none, expires_at := 0 + 3600 } := by
      simp [store_secrets, List.lookup, DEFAULT_TTL_SECONDS]
    simp only [orchestrate_deployment_cache_ops, str_truthy, Bool.false_eq_true, if_false,
      apply_cache_ops, get_secrets, hlook]
    rw [if_neg (by norm_num)]
    simp [apply_cache_ops, hlook]

/-- C9 amended: secrets are stored under the deployment id with a TTL
defaulting to one hour (3600 s) and the background workflow reads them when
it was not handed the key directly; but the workflow performs no delete —
the entry survives the workflow's cache operations while unexpired, and is
removed only lazily, by a read after the TTL has elapsed (or by
`clear_secrets`, which no code path invokes). -/
theorem secret_cache_ttl_and_workflow
    (deployment_id key : String) (hf_token : Option String) (now : ℚ) (cache : SecretCache) :
    DEFAULT_TTL_SECONDS = 3600 ∧
    (store_secrets cache deployment_id key hf_token now).lookup deployment_id =
      some { runpod_api_key := key, hf_token := hf_token, expires_at := now + 3600 } ∧
    CacheOp.fetch deployment_id ∈ orchestrate_deployment_cache_ops deployment_id none ∧
    (∀ key?, CacheOp.clear deployment_id ∉ orchestrate_deployment_cache_ops deployment_id key?) ∧
    (∀ t, t < now + 3600 →
      ((apply_cache_ops t (store_secrets cache deployment_id key hf_token now)
          (orchestrate_deployment_cache_ops deployment_id none)).lookup deployment_id).isSome
        = true) ∧
    (∀ t, now + 3600 ≤ t →
      (get_secrets (store_secrets cache deployment_id key hf_token now) deployment_id t).1
        = none) := by
  have hlook :
      (store_secrets cache deployment_id key hf_token now).lookup deployment_id =
        some { runpod_api_key := key, hf_token := hf_token, expires_at := now + 3600 } := by
    simp [store_secrets, List.lookup, DEFAULT_TTL_SECONDS]
  refine ⟨rfl, hlook, ?_, ?_, ?_, ?_⟩
  · simp [orchestrate_deployment_cache_ops, str_truthy]
  · intro key?
    cases key? with
    | none => simp [orchestrate_deployment_cache_ops, str_truthy]
    | some k =>
      by_cases hk : k = ""
      · simp [orchestrate_deployment_cache_ops, str_truthy, hk]
      · simp [orchestrate_deployment_cache_ops, str_truthy, hk]
  · intro t ht
    simp only [orchestrate_deployment_cache_ops, str_truthy, Bool.false_eq_true,
      if_false, apply_cache_ops, get_secrets, hlook]
    rw [if_neg (by exact not_le.mpr ht)]
    simp [apply_cache_ops, hlook]
  · intro t ht
    simp [get_secrets, hlook, ht]

/-- Witness for the amended C9: the entry stored at time 0 is still readable
after the workflow's cache operations at time 10, and a read at one hour
plus one second finds it expired. -/
theorem secret_cache_ttl_and_workflow_witness :
    ((apply_cache_ops 10 (store_secrets [] "dep_2025_5e5e5e5e" "rpa_TEST" none 0)
        (orchestrate_deployment_cache_ops "dep_2025_5e5e5e5e" none)).lookup
      "dep_2025_5e5e5e5e").isSome = true ∧
    (get_secrets (store_secrets [] "dep_2025_5e5e5e5e" "rpa_TEST" none 0)
      "dep_2025_5e5e5e5e" 3601).1 = none :=
  ⟨(secret_cache_ttl_and_workflow "dep_2025_5e5e5e5e" "rpa_TEST" none 0 []).2.2.2.2.1
      10 (by norm_num),
   (secret_cache_ttl_and_workflow "dep_2025_5e5e5e5e" "rpa_TEST" none 0 []).2.2.2.2.2
      3601 (by norm_num)⟩

/-! C5 — GPU selection soundness. -/

/-- Membership is preserved by stable insertion. -/
theorem mem_stable_insert (le : GPUSpec → GPUSpec → Bool) (a x : GPUSpec) (l : List GPUSpec) :
    x ∈ stable_insert le a l ↔ x = a ∨ x ∈ l := by
  induction l with
  | nil => simp [stable_insert]
  | cons b bs ih =>
    simp only [stable_insert]
    split
    · simp [or_comm, or_left_comm]
    · simp [ih, or_comm, or_left_comm]

/-- Membership is preserved by the stable sort. -/
theorem mem_stable_sort (le : GPUSpec → GPUSpec → Bool) (x : GPUSpec) (l : List GPUSpec) :
    x ∈ stable_sort le l ↔ x ∈ l := by
  induction l with
  | nil => simp [stable_sort]
  | cons a l ih => simp [stable_sort, mem_stable_insert, ih]

/-- C5: GPU selection never hands out a candidate with too little VRAM —
every id returned by `select_gpu_id_for_vram` and every candidate pair
returned by `select_gpu_candidates` corresponds to a registry entry whose
`vram` is at least the requirement — and when no entry of the effective
registry has enough VRAM, `select_gpu_candidates` fails with
`InsufficientGPU` carrying the required VRAM (HTTP 503) instead of
returning anything. -/
theorem gpu_selection_vram_sound
    (vram_gb : Nat) (gpu_tier : Option String)
    (registry : List GPUSpec) (tier_mapping : List (String × List String)) :
    (∀ gpu_id, select_gpu_id_for_vram vram_gb gpu_tier registry tier_mapping = some gpu_id →
      ∃ g, g ∈ effective_registry registry ∧ g.id = gpu_id ∧ vram_gb ≤ g.vram) ∧
    (∀ candidates,
      select_gpu_candidates vram_gb gpu_tier registry tier_mapping = Except.ok candidates →
      ∀ c ∈ candidates, ∃ g, g ∈ effective_registry registry ∧ g.id = c.1 ∧ vram_gb ≤ g.vram) ∧
    ((∀ g ∈ effective_registry registry, g.vram < vram_gb) →
      select_gpu_candidates vram_gb gpu_tier registry tier_mapping =
        Except.error (ApiError.insufficientGPU vram_gb) ∧
      (ApiError.insufficientGPU vram_gb).status_code = 503) := by
  have hfind : ∀ (p : GPUSpec → Bool) (g : GPUSpec),
      (stable_sort gpu_key_le (effective_registry registry)).find? p = some g →
        g ∈ effective_registry registry ∧ p g = true := fun p g hf =>
    ⟨(mem_stable_sort _ _ _).1 (List.mem_of_find?_eq_some hf), List.find?_some hf⟩
  refine ⟨?_, ?_, ?_⟩
  · intro gpu_id h
    unfold select_gpu_id_for_vram at h
    simp only [] at h
    split at h
    · rename_i g hg
      split at hg
      · exact absurd hg (by simp)
      · obtain ⟨hmem, hp⟩ := hfind _ _ hg
        simp only [Bool.and_eq_true, decide_eq_true_eq] at hp
        exact ⟨g, hmem, by simpa using h, hp.2⟩
    · split at h
      · rename_i g hg
        obtain ⟨hmem, hp⟩ := hfind _ _ hg
        simp only [decide_eq_true_eq] at hp
        exact ⟨g, hmem, by simpa using h, hp⟩
      · exact absurd h (by simp)
  · intro candidates h c hc
    unfold select_gpu_candidates at h
    simp only [] at h
    split at h
    · exact absurd h (by simp)
    · simp only [Except.ok.injEq] at h
      subst h
      obtain ⟨gpu_id, hid, hceq⟩ := List.mem_map.1 hc
      unfold select_gpu_candidates_for_vram at hid
      simp only [] at hid
      rcases List.mem_append.1 hid with hin | hin <;>
      · obtain ⟨g, hg, hgid⟩ := List.mem_map.1 hin
        obtain ⟨hgs, hp⟩ := List.mem_filter.1 hg
        simp only [Bool.and_eq_true, decide_eq_true_eq] at hp
        refine ⟨g, (mem_stable_sort _ _ _).1 hgs, ?_, hp.2⟩
        rw [hgid, ← hceq]
  · intro hall
    have hnil : ∀ (q : GPUSpec → Bool),
        (stable_sort gpu_key_le (effective_registry registry)).filter
          (fun g => q g && decide (vram_gb ≤ g.vram)) = [] := by
      intro q
      refine List.filter_eq_nil_iff.2 (fun g hg => ?_)
      have := hall g ((mem_stable_sort _ _ _).1 hg)
      simp [Nat.not_le.2 this]
    have hids : select_gpu_candidates_for_vram vram_gb gpu_tier registry tier_mapping = [] := by
      unfold select_gpu_candidates_for_vram
      simp only [hnil, List.map_nil, List.append_nil]
    refine ⟨?_, rfl⟩
    unfold select_gpu_candidates
    simp [hids]

/-- Witness for C5: with 100 GB required, no entry of the default registry
suffices, and selection fails with `InsufficientGPU(100)` at HTTP 503; with
16 GB required, the returned id is backed by a registry entry with enough
VRAM. -/
theorem gpu_selection_vram_sound_witness :
    (select_gpu_candidates 100 none [] [] =
      Except.error (ApiError.insufficientGPU 100) ∧
     (ApiError.insufficientGPU 100).status_code = 503) ∧
    (∃ g, g ∈ effective_registry [] ∧ g.id = "AMPERE_16" ∧ 16 ≤ g.vram) :=
  ⟨(gpu_selection_vram_sound 100 none [] []).2.2 (by decide),
   (gpu_selection_vram_sound 16 none [] []).1 "AMPERE_16" (by decide)⟩

/-! C1 — which states are frozen against worker updates. -/

/-- C1 counterexample: a record in the terminal status `failed` is not
frozen — a worker phase callback moves it to `downloading_model`, and a
worker ready callback even resurrects it to `ready` (the guards in
`update_deployment_phase_from_worker` and `mark_deployment_ready_and_notify`
only check for current status `ready`, never for `failed`, `webhook_failed`
or `deleted`). -/
theorem failed_record_not_frozen_counterexample :
    failedDoc.status = "failed" ∧
    (update_deployment_phase_from_worker (some failedDoc) "downloading_model" none none
        "2025-01-01T00:00:00Z" (fun _ => true) 3).doc.map DeploymentDoc.status =
      some "downloading_model" ∧
    (mark_deployment_ready_and_notify (some failedDoc) none
        "2025-01-01T00:00:00Z" (fun _ => true) 3).doc.map DeploymentDoc.status =
      some "ready" := by
  decide

/-- C1 amended: only the `ready` state is frozen.  A record whose status is
`ready` with `ready_at` set ignores every incoming worker update — a further
ready callback and every non-failed phase callback return `true` and leave
the record and effects untouched — with the single exception of an explicit
worker-reported failure, which moves it to `failed` without touching
`ready_at`.  Records in `failed`, `webhook_failed` or `deleted` are not
protected by the code. -/
theorem ready_state_freeze
    (doc : DeploymentDoc) (status : String) (message? endpoint_url? : Option String)
    (now : String) (oracle : Nat → Bool) (retries : Nat)
    (hs : doc.status = "ready") (hr : str_truthy doc.ready_at = true) :
    mark_deployment_ready_and_notify (some doc) endpoint_url? now oracle retries =
      { doc := some doc, returned := true, eff := {} } ∧
    (status ≠ "failed" →
      update_deployment_phase_from_worker (some doc) status message? endpoint_url?
          now oracle retries =
        { doc := some doc, returned := true, eff := {} }) ∧
    (status = "failed" →
      ∃ doc2,
        (update_deployment_phase_from_worker (some doc) status message? endpoint_url?
            now oracle retries).doc = some doc2 ∧
        doc2.status = "failed" ∧ doc2.ready_at = doc.ready_at ∧
        doc2.deployment_id = doc.deployment_id) := by
  have hmark :
      mark_deployment_ready_and_notify (some doc) endpoint_url? now oracle retries =
        { doc := some doc, returned := true, eff := {} } := by
    simp only [mark_deployment_ready_and_notify]
    rw [if_pos ⟨hs, hr⟩]
  refine ⟨hmark, ?_, ?_⟩
  · intro hnf
    simp only [update_deployment_phase_from_worker]
    by_cases hready : status = "ready"
    · rw [if_pos hready]
      exact hmark
    · rw [if_neg hready, if_pos ⟨hs, hnf⟩]
  · intro hf
    subst hf
    simp only [update_deployment_phase_from_worker]
    rw [if_neg (show ¬(("failed" : String) = "ready") by decide)]
    rw [if_neg (show ¬(doc.status = "ready" ∧ ("failed" : String) ≠ "failed") by simp)]
    simp only [reduceIte]
    exact ⟨_, rfl, rfl, rfl, rfl⟩

/-- Witness for the amended C1: a ready record withstands a `loading_model`
callback unchanged and moves to `failed` (keeping `ready_at`) on a worker
failure. -/
theorem ready_state_freeze_witness :
    update_deployment_phase_from_worker (some readyDoc) "loading_model" none none
        "2025-02-02T00:00:00Z" (fun _ => true) 3 =
      { doc := some readyDoc, returned := true, eff := {} } ∧
    (∃ doc2,
      (update_deployment_phase_from_worker (some readyDoc) "failed" (some "CUDA out of memory")
          none "2025-02-02T00:00:00Z" (fun _ => true) 3).doc = some doc2 ∧
      doc2.status = "failed" ∧ doc2.ready_at = readyDoc.ready_at ∧
      doc2.deployment_id = readyDoc.deployment_id) :=
  ⟨(ready_state_freeze readyDoc "loading_model" none none "2025-02-02T00:00:00Z"
      (fun _ => true) 3 rfl (by decide)).2.1 (by decide),
   (ready_state_freeze readyDoc "failed" (some "CUDA out of memory") none
      "2025-02-02T00:00:00Z" (fun _ => true) 3 rfl (by decide)).2.2 rfl⟩

/-! C2 — idempotence of mark_deployment_ready_and_notify. -/

/-- C2 counterexample: for an existing record that is already `ready` with
`ready_at` set, invoking `mark_deployment_ready_and_notify` twice performs
zero store updates (both calls take the idempotent early return), not
"exactly one" as the claim, quantified over every existing record, states. -/
theorem mark_ready_twice_zero_writes_counterexample :
    (mark_deployment_ready_and_notify (some readyDoc) none "2025-01-02T00:00:00Z"
        (fun _ => true) 3).eff.ready_writes = 0 ∧
    (mark_deployment_ready_and_notify
        (mark_deployment_ready_and_notify (some readyDoc) none "2025-01-02T00:00:00Z"
          (fun _ => true) 3).doc
        none "2025-01-02T00:00:01Z" (fun _ => true) 3).eff.ready_writes = 0 ∧
    (mark_deployment_ready_and_notify (some readyDoc) none "2025-01-02T00:00:00Z"
        (fun _ => true) 3).returned = true ∧
    (mark_deployment_ready_and_notify
        (mark_deployment_ready_and_notify (some readyDoc) none "2025-01-02T00:00:00Z"
          (fun _ => true) 3).doc
        none "2025-01-02T00:00:01Z" (fun _ => true) 3).returned = true := by
  decide

/-- C2 amended: invoking `mark_deployment_ready_and_notify` twice in
sequence on an existing record performs at most one store update that sets
`status=ready` and `ready_at` — exactly one when the record was not already
ready with `ready_at` set — the second invocation returns `true` without
writing anything and leaves the store exactly as the first left it (so
`ready_at` never changes once set), there is at most one successful webhook
POST, and at most two webhook notification calls. -/
theorem mark_ready_idempotent
    (doc : DeploymentDoc) (u1 u2 : Option String) (now1 now2 : String)
    (or1 or2 : Nat → Bool) (r1 r2 : Nat) (h : now1 ≠ "") :
    (mark_deployment_ready_and_notify
        (mark_deployment_ready_and_notify (some doc) u1 now1 or1 r1).doc
        u2 now2 or2 r2).returned = true ∧
    (mark_deployment_ready_and_notify
        (mark_deployment_ready_and_notify (some doc) u1 now1 or1 r1).doc
        u2 now2 or2 r2).doc =
      (mark_deployment_ready_and_notify (some doc) u1 now1 or1 r1).doc ∧
    (mark_deployment_ready_and_notify
        (mark_deployment_ready_and_notify (some doc) u1 now1 or1 r1).doc
        u2 now2 or2 r2).eff = {} ∧
    (mark_deployment_ready_and_notify (some doc) u1 now1 or1 r1).eff.ready_writes ≤ 1 ∧
    (¬ (doc.status = "ready" ∧ str_truthy doc.ready_at = true) →
      (mark_deployment_ready_and_notify (some doc) u1 now1 or1 r1).eff.ready_writes = 1 ∧
      ∃ d, (mark_deployment_ready_and_notify (some doc) u1 now1 or1 r1).doc = some d ∧
        d.status = "ready" ∧ d.ready_at = some now1) ∧
    (doc.status = "ready" ∧ str_truthy doc.ready_at = true →
      (mark_deployment_ready_and_notify (some doc) u1 now1 or1 r1).eff.ready_writes = 0 ∧
      (mark_deployment_ready_and_notify (some doc) u1 now1 or1 r1).doc = some doc) ∧
    (mark_deployment_ready_and_notify (some doc) u1 now1 or1 r1).eff.successful_posts +
      (mark_deployment_ready_and_notify
        (mark_deployment_ready_and_notify (some doc) u1 now1 or1 r1).doc
        u2 now2 or2 r2).eff.successful_posts ≤ 1 ∧
    (mark_deployment_ready_and_notify (some doc) u1 now1 or1 r1).eff.notify_calls +
      (mark_deployment_ready_and_notify
        (mark_deployment_ready_and_notify (some doc) u1 now1 or1 r1).doc
        u2 now2 or2 r2).eff.notify_calls ≤ 2 := by
  by_cases hready : doc.status = "ready" ∧ str_truthy doc.ready_at = true
  · have h1 :
        mark_deployment_ready_and_notify (some doc) u1 now1 or1 r1 =
          { doc := some doc, returned := true, eff := {} } := by
      simp only [mark_deployment_ready_and_notify]
      rw [if_pos hready]
    rw [h1]
    have h2 :
        mark_deployment_ready_and_notify (some doc) u2 now2 or2 r2 =
          { doc := some doc, returned := true, eff := {} } := by
      simp only [mark_deployment_ready_and_notify]
      rw [if_pos hready]
    refine ⟨?_, ?_, ?_, ?_, ?_, ?_, ?_, ?_⟩ <;>
      simp [h2, hready]
  · have hsplit :
        (mark_deployment_ready_and_notify (some doc) u1 now1 or1 r1 =
          { doc := some { doc with
              status := "ready", ready_at := some now1,
              endpoint_url :=
                match or_else_str (as_run_url u1) (as_run_url doc.endpoint_url) with
                | some u => some u
                | none => doc.endpoint_url,
              logs := doc.logs ++ [⟨"INFO", "Model loaded, deployment ready"⟩] }
            returned := true
            eff := { ready_writes := 1, notify_calls := 1,
                     webhook_posts := (notify or1 r1).posts, successful_posts := 1,
                     webhook_failure_metric := (notify or1 r1).failure_metric } }) ∨
        (mark_deployment_ready_and_notify (some doc) u1 now1 or1 r1 =
          { doc := some { doc with
              status := "ready", ready_at := some now1,
              endpoint_url :=
                match or_else_str (as_run_url u1) (as_run_url doc.endpoint_url) with
                | some u => some u
                | none => doc.endpoint_url,
              error := some "User webhook delivery failed after retries",
              logs := doc.logs ++ [⟨"INFO", "Model loaded, deployment ready"⟩] ++
                [⟨"WARNING", "User webhook delivery failed after retries; deployment remains ready"⟩] }
            returned := false
            eff := { ready_writes := 1, notify_calls := 1,
                     webhook_posts := (notify or1 r1).posts, successful_posts := 0,
                     webhook_failure_metric := (notify or1 r1).failure_metric + 1 } }) := by
      simp only [mark_deployment_ready_and_notify]
      rw [if_neg hready]
      by_cases hd : (notify or1 r1).delivered = true
      · left
        rw [if_pos hd]
      · right
        rw [if_neg hd]
    have hsecond : ∀ d : DeploymentDoc, d.status = "ready" → d.ready_at = some now1 →
        mark_deployment_ready_and_notify (some d) u2 now2 or2 r2 =
          { doc := some d, returned := true, eff := {} } := by
      intro d hds hdr
      simp only [mark_deployment_ready_and_notify]
      rw [if_pos ⟨hds, by simp [str_truthy, hdr, h]⟩]
    rcases hsplit with h1 | h1 <;>
    · rw [h1, hsecond _ (by simp) (by simp)]
      refine ⟨rfl, rfl, rfl, by simp, fun _ => ⟨by simp, _, rfl, by simp, by simp⟩,
        fun hcon => absurd hcon hready, by simp, by simp⟩

/-- Witness for the amended C2: a record in `loading_model` marked ready
twice — the first call performs the single ready write stamping `ready_at`,
the second returns `true` leaving the store untouched. -/
theorem mark_ready_idempotent_witness :
    (mark_deployment_ready_and_notify
        (mark_deployment_ready_and_notify (some loadingDoc) none "2025-01-01T00:05:00Z"
          (fun _ => true) 3).doc
        none "2025-01-01T00:06:00Z" (fun _ => true) 3).returned = true ∧
    (mark_deployment_ready_and_notify (some loadingDoc) none "2025-01-01T00:05:00Z"
        (fun _ => true) 3).eff.ready_writes = 1 ∧
    (mark_deployment_ready_and_notify
        (mark_deployment_ready_and_notify (some loadingDoc) none "2025-01-01T00:05:00Z"
          (fun _ => true) 3).doc
        none "2025-01-01T00:06:00Z" (fun _ => true) 3).eff = {} :=
  ⟨(mark_ready_idempotent loadingDoc none none "2025-01-01T00:05:00Z" "2025-01-01T00:06:00Z"
      (fun _ => true) (fun _ => true) 3 3 (by decide)).1,
   ((mark_ready_idempotent loadingDoc none none "2025-01-01T00:05:00Z" "2025-01-01T00:06:00Z"
      (fun _ => true) (fun _ => true) 3 3 (by decide)).2.2.2.2.1 (by decide)).1,
   (mark_ready_idempotent loadingDoc none none "2025-01-01T00:05:00Z" "2025-01-01T00:06:00Z"
      (fun _ => true) (fun _ => true) 3 3 (by decide)).2.2.1⟩

/-! C3 — effects of an exhausted user-webhook retry. -/

/-- C3: evaluation at the failing input of the claim — an existing record in
`loading_model` whose user webhook answers HTTP 500 on each of the 3
attempts.  The status is set to `ready` and never moved away, the WARNING
log line is appended, and three POST attempts are made — but
`webhook_delivery_failures_total` is incremented twice, not once: once
inside `notify` (services/webhook.py:48) after the retries are exhausted and
once more by `mark_deployment_ready_and_notify`
(services/deployment.py:442) on the `not success` branch. -/
theorem webhook_failure_effects :
    (mark_deployment_ready_and_notify (some loadingDoc) none "2025-01-01T00:05:00Z"
        (fun _ => false) 3).doc.map DeploymentDoc.status = some "ready" ∧
    (mark_deployment_ready_and_notify (some loadingDoc) none "2025-01-01T00:05:00Z"
        (fun _ => false) 3).doc.map DeploymentDoc.logs =
      some [⟨"INFO", "Model loaded, deployment ready"⟩,
            ⟨"WARNING", "User webhook delivery failed after retries; deployment remains ready"⟩] ∧
    (mark_deployment_ready_and_notify (some loadingDoc) none "2025-01-01T00:05:00Z"
        (fun _ => false) 3).eff.webhook_posts = 3 ∧
    (mark_deployment_ready_and_notify (some loadingDoc) none "2025-01-01T00:05:00Z"
        (fun _ => false) 3).eff.webhook_failure_metric = 2 := by
  decide

/-! C7 — VRAM estimation priority. -/

/-- Closed form of the tier search of `_snap_to_gpu_tier`. -/
theorem find_tier_eq (c : ℤ) :
    GPU_TIERS.find? (fun (tier : Nat) => decide (c ≤ (tier : ℤ))) =
      (if c ≤ 6 then some 6 else if c ≤ 8 then some 8 else if c ≤ 10 then some 10
       else if c ≤ 12 then some 12 else if c ≤ 16 then some 16 else if c ≤ 24 then some 24
       else if c ≤ 28 then some 28 else if c ≤ 40 then some 40 else if c ≤ 48 then some 48
       else if c ≤ 80 then some 80 else none) := by
  by_cases h6 : c ≤ 6
  · simp [GPU_TIERS, List.find?, h6]
  · by_cases h8 : c ≤ 8
    · simp [GPU_TIERS, List.find?, h6, h8]
    · by_cases h10 : c ≤ 10
      · simp [GPU_TIERS, List.find?, h6, h8, h10]
      · by_cases h12 : c ≤ 12
        · simp [GPU_TIERS, List.find?, h6, h8, h10, h12]
        · by_cases h16 : c ≤ 16
          · simp [GPU_TIERS, List.find?, h6, h8, h10, h12, h16]
          · by_cases h24 : c ≤ 24
            · simp [GPU_TIERS, List.find?, h6, h8, h10, h12, h16, h24]
            · by_cases h28 : c ≤ 28
              · simp [GPU_TIERS, List.find?, h6, h8, h10, h12, h16, h24, h28]
              · by_cases h40 : c ≤ 40
                · simp [GPU_TIERS, List.find?, h6, h8, h10, h12, h16, h24, h28, h40]
                · by_cases h48 : c ≤ 48
                  · simp [GPU_TIERS, List.find?, h6, h8, h10, h12, h16, h24, h28, h40, h48]
                  · by_cases h80 : c ≤ 80 <;>
                      simp [GPU_TIERS, List.find?, h6, h8, h10, h12, h16, h24, h28, h40, h48, h80]

/-- Closed form of `_snap_to_gpu_tier` as nested comparisons on `ceil(v)`. -/
theorem snap_eq (v : ℚ) :
    snap_to_gpu_tier v =
      (if ⌈v⌉ ≤ 6 then 6 else if ⌈v⌉ ≤ 8 then 8 else if ⌈v⌉ ≤ 10 then 10
       else if ⌈v⌉ ≤ 12 then 12 else if ⌈v⌉ ≤ 16 then 16 else if ⌈v⌉ ≤ 24 then 24
       else if ⌈v⌉ ≤ 28 then 28 else if ⌈v⌉ ≤ 40 then 40 else if ⌈v⌉ ≤ 48 then 48
       else if ⌈v⌉ ≤ 80 then 80 else 80) := by
  unfold snap_to_gpu_tier
  rw [find_tier_eq]
  simp only [apply_ite (fun o : Option ℕ => o.getD 80), Option.getD_some, Option.getD_none]

/-- The tier snap returns a real tier; below the 80 GB cap it is the least
tier at least `ceil(v)` (a genuine round-up), and above the cap it clamps to
80. -/
theorem find_first_le_min (c : ℤ) (l : List Nat) (hsort : l.Pairwise (fun a b => a ≤ b))
    (a : Nat) (hf : l.find? (fun (t : Nat) => decide (c ≤ (t : ℤ))) = some a) :
    ∀ b ∈ l, c ≤ (b : ℤ) → a ≤ b := by
  induction l with
  | nil => simp at hf
  | cons x xs ih =>
    by_cases hx : c ≤ (x : ℤ)
    · simp only [List.find?, decide_eq_true hx, Option.some.injEq] at hf
      subst hf
      intro b hb _
      rcases List.mem_cons.1 hb with rfl | hb
      · exact le_refl b
      · exact (List.pairwise_cons.1 hsort).1 b hb
    · simp only [List.find?, decide_eq_false hx] at hf
      intro b hb hcb
      rcases List.mem_cons.1 hb with rfl | hb
      · exact absurd hcb hx
      · exact ih (List.pairwise_cons.1 hsort).2 hf b hb hcb

/-- The tier snap returns a real tier; below the 80 GB cap it is the least
tier at least `ceil(v)` (a genuine round-up), and above the cap it clamps to
80. -/
theorem snap_to_gpu_tier_spec (v : ℚ) :
    snap_to_gpu_tier v ∈ GPU_TIERS ∧
    (⌈v⌉ ≤ 80 →
      ⌈v⌉ ≤ (snap_to_gpu_tier v : ℤ) ∧
      ∀ t ∈ GPU_TIERS, ⌈v⌉ ≤ (t : ℤ) → snap_to_gpu_tier v ≤ t) ∧
    (80 < ⌈v⌉ → snap_to_gpu_tier v = 80) := by
  cases hf : GPU_TIERS.find? (fun (tier : Nat) => decide (⌈v⌉ ≤ (tier : ℤ))) with
  | some a =>
    have hsnap : snap_to_gpu_tier v = a := by
      unfold snap_to_gpu_tier
      rw [hf]
      rfl
    have hmem : a ∈ GPU_TIERS := List.mem_of_find?_eq_some hf
    have hca : ⌈v⌉ ≤ (a : ℤ) := by simpa using List.find?_some hf
    have ha80 : (a : ℤ) ≤ 80 := by
      simp only [GPU_TIERS, List.mem_cons, List.not_mem_nil, or_false] at hmem
      rcases hmem with rfl | rfl | rfl | rfl | rfl | rfl | rfl | rfl | rfl | rfl <;> omega
    refine ⟨hsnap ▸ hmem, fun _ => ⟨hsnap ▸ hca, fun t ht hct => ?_⟩, fun hgt => ?_⟩
    · rw [hsnap]
      exact find_first_le_min ⌈v⌉ GPU_TIERS (by decide) a hf t ht hct
    · omega
  | none =>
    have hsnap : snap_to_gpu_tier v = 80 := by
      unfold snap_to_gpu_tier
      rw [hf]
      rfl
    have h80 : ¬ (⌈v⌉ ≤ (80 : ℤ)) := by
      have := List.find?_eq_none.1 hf 80 (by decide)
      simpa using this
    exact ⟨hsnap ▸ (by decide), fun hle => absurd hle h80, fun _ => hsnap⟩

/-- C7 counterexample: for an unlisted model with 100 GiB of safetensors
weight bytes the headroom value is 135 GB, above every tier in the table, so
nothing can be "snapped up" to — yet the code returns the largest tier, 80
GB, which is below the headroom value.  The stated formula (snap up to the
nearest tier) therefore fails for large models; the code clamps down to 80
instead. -/
theorem vram_estimate_cap_counterexample :
    MODEL_SPECS_REGISTRY.lookup "example-org/oversized-model" = none ∧
    ((100 * 1024 ^ 3 : ℕ) : ℚ) / 1024 ^ 3 * ACTIVATION_MULTIPLIER = 135 ∧
    (∀ t ∈ GPU_TIERS, (t : ℚ) < 135) ∧
    get_min_gpu_memory_gb "example-org/oversized-model" none (some (100 * 1024 ^ 3)) = 80 := by
  have hval : ((100 * 1024 ^ 3 : ℕ) : ℚ) / 1024 ^ 3 * ACTIVATION_MULTIPLIER = 135 := by
    norm_num [ACTIVATION_MULTIPLIER]
  refine ⟨by decide, hval, by decide, ?_⟩
  have hc : ⌈((100 * 1024 ^ 3 : ℕ) : ℚ) / 1024 ^ 3 * ACTIVATION_MULTIPLIER⌉ = (135 : ℤ) := by
    rw [hval]
    norm_num
  unfold get_min_gpu_memory_gb
  rw [show MODEL_SPECS_REGISTRY.lookup "example-org/oversized-model" = none from by decide]
  dsimp only []
  rw [if_pos (show (0 : ℕ) < 100 * 1024 ^ 3 by norm_num)]
  unfold estimate_vram_from_weight_bytes
  rw [snap_eq, hc]
  norm_num

/-- C7 amended: the estimation priority holds as claimed — a curated
registry entry always wins and makes the dtype estimator unreachable, then
positive safetensors weight bytes give `bytes / 1024³ × 1.35` snapped up to
the nearest tier of the table, then the parameter-count table, else the 16
GB default — with the one qualification that when the headroom value exceeds
the largest tier (80 GB) the snap clamps to 80 rather than rounding up. -/
theorem vram_estimation_priority (model_id : String) :
    (∀ v, MODEL_SPECS_REGISTRY.lookup model_id = some v →
      ∀ p? b?, get_min_gpu_memory_gb model_id p? b? = v) ∧
    (MODEL_SPECS_REGISTRY.lookup model_id = none →
      (∀ b : Nat, 0 < b → ∀ p?,
        get_min_gpu_memory_gb model_id p? (some b) =
          snap_to_gpu_tier ((b : ℚ) / 1024 ^ 3 * ACTIVATION_MULTIPLIER)) ∧
      (∀ p, get_min_gpu_memory_gb model_id (some p) none = estimate_vram_from_params p) ∧
      get_min_gpu_memory_gb model_id none none = 16) ∧
    (∀ b : Nat,
      estimate_vram_from_weight_bytes b ∈ GPU_TIERS ∧
      (⌈(b : ℚ) / 1024 ^ 3 * ACTIVATION_MULTIPLIER⌉ ≤ 80 →
        ⌈(b : ℚ) / 1024 ^ 3 * ACTIVATION_MULTIPLIER⌉ ≤ (estimate_vram_from_weight_bytes b : ℤ) ∧
        ∀ t ∈ GPU_TIERS,
          ⌈(b : ℚ) / 1024 ^ 3 * ACTIVATION_MULTIPLIER⌉ ≤ (t : ℤ) →
            estimate_vram_from_weight_bytes b ≤ t) ∧
      (80 < ⌈(b : ℚ) / 1024 ^ 3 * ACTIVATION_MULTIPLIER⌉ →
        estimate_vram_from_weight_bytes b = 80)) := by
  refine ⟨?_, ?_, ?_⟩
  · intro v hv p? b?
    unfold get_min_gpu_memory_gb
    rw [hv]
  · intro hnone
    refine ⟨?_, ?_, ?_⟩
    · intro b hb p?
      unfold get_min_gpu_memory_gb
      rw [hnone]
      dsimp only []
      rw [if_pos hb]
      rfl
    · intro p
      unfold get_min_gpu_memory_gb
      rw [hnone]
    · unfold get_min_gpu_memory_gb
      rw [hnone]
  · intro b
    exact snap_to_gpu_tier_spec ((b : ℚ) / 1024 ^ 3 * ACTIVATION_MULTIPLIER)

/-- Witness for the amended C7: the registry wins for `sd-turbo` even when
weight bytes are supplied, and an unlisted model falls through to the
parameter table and the default. -/
theorem vram_estimation_priority_witness :
    get_min_gpu_memory_gb "stabilityai/sd-turbo" (some 99999) (some 1) = 8 ∧
    get_min_gpu_memory_gb "example-org/unlisted-model" (some 12000) none =
      estimate_vram_from_params 12000 ∧
    get_min_gpu_memory_gb "example-org/unlisted-model" none none = 16 :=
  ⟨(vram_estimation_priority "stabilityai/sd-turbo").1 8 (by decide) (some 99999) (some 1),
   ((vram_estimation_priority "example-org/unlisted-model").2.1 (by decide)).2.1 12000,
   ((vram_estimation_priority "example-org/unlisted-model").2.1 (by decide)).2.2⟩

end Visgate
